import Mathlib

/-!
# Verification of the LinkedIn job-retrieval engine (`linkedin_scraper.py`)

Shallow embedding of the paginated retrieval engine of the repository:
filter translation and URL construction (`LinkedInJobScraper.__init__`,
`_build_search_url`), record extraction from parsed markup
(`_parse_jobs_from_html`), and the pagination / retry / backoff loop
(`search_jobs`).

External library calls are modelled at their interface:
* `requests.get` and the network are an oracle `Nat → AttemptOutcome`
  giving the outcome of each successive fetch attempt;
* `BeautifulSoup` parsing of an HTML fragment is modelled by its result:
  the list of `<li>` elements, each carrying the optional sub-elements the
  extractor looks up (`LiFragment`);
* `time.sleep` calls are recorded as events in an event trace;
* `requests.utils.requote_uri` is modelled as percent-encoding of the
  characters outside its safe set (`requote_uri` below).

Python truthiness on optional strings (`if position and company`,
`location or ""`, …) is modelled by `truthy` / `pyOr` / `orEmpty`.
-/

namespace LinkedInScraper

/-- Python string truthiness for an optional string: `None` and `""` are
falsy, every other string is truthy. -/
def truthy : Option String → Bool
  | none => false
  | some s => !(s = "")

/-- Python `a or b` on optional strings: `a` if truthy, else `b`. -/
def pyOr (a b : Option String) : Option String :=
  if truthy a then a else b

/-- Python `a or ""` on an optional string. -/
def orEmpty (a : Option String) : String :=
  match a with
  | none => ""
  | some s => s

/-- One job record as assembled by `_parse_jobs_from_html`
(`linkedin_scraper.py` lines 187-198). -/
structure Job where
  position : String
  company : String
  location : String
  date : String
  agoTime : String
  salary : String
  jobUrl : String
  companyLogo : String
deriving DecidableEq, Repr

/-- A `<time class="job-search-card__listdate">` element: its `datetime`
attribute (absent attribute makes `date_elem["datetime"]` raise `KeyError`)
and its stripped text. -/
structure TimeElem where
  datetime : Option String
  text : String
deriving DecidableEq, Repr

/-- An `<a class="base-card__full-link">` element: its `href` attribute
(absent attribute makes `link_elem["href"]` raise `KeyError`). -/
structure LinkElem where
  href : Option String
deriving DecidableEq, Repr

/-- An `<img class="artdeco-entity-image">` element with its two optional
attributes (`.get` returns `None` when absent, no exception). -/
structure ImgElem where
  dataDelayedUrl : Option String
  src : Option String
deriving DecidableEq, Repr

/-- One `<li>` fragment of the response markup, as seen through the
`li.find(...)` calls of `_parse_jobs_from_html` (lines 153-159): each field
is `none` when the sub-element is absent; text-valued fields hold the
stripped text of the element when present (`get_text` never raises and
always returns a string, possibly empty). -/
structure LiFragment where
  title : Option String
  company : Option String
  location : Option String
  timeEl : Option TimeElem
  salary : Option String
  link : Option LinkElem
  logo : Option ImgElem
deriving DecidableEq, Repr

/-- Extraction of one job from one `<li>` fragment, mirroring one loop
iteration of `_parse_jobs_from_html` (lines 151-201).  Returns `none` both
when the fragment raises inside the `try` block (a present `time` element
without `datetime`, or a present link without `href`: `KeyError`, caught at
line 199 and the fragment skipped) and when `position and company` is falsy
(line 186, record silently discarded). -/
def parseFragment (li : LiFragment) : Option Job :=
  let position := li.title
  let company := li.company
  let location := li.location
  match li.timeEl with
  | some t =>
    match t.datetime with
    | none => none
    | some d => parseFragmentRest li position company location (some d) (some t.text)
  | none => parseFragmentRest li position company location none none
where
  /-- Continuation after the date extraction (lines 170-198). -/
  parseFragmentRest (li : LiFragment)
      (position company location date agoTime : Option String) : Option Job :=
    let salary : Option String :=
      match li.salary with
      | some salaryText => if salaryText = "" then none else some salaryText
      | none => none
    match li.link with
    | some l =>
      match l.href with
      | none => none
      | some h => parseFragmentEmit li position company location date agoTime salary (some h)
    | none => parseFragmentEmit li position company location date agoTime salary none
  /-- The logo fallback and the final emission test (lines 178-198). -/
  parseFragmentEmit (li : LiFragment)
      (position company location date agoTime salary jobUrl : Option String) : Option Job :=
    let companyLogo : Option String :=
      match li.logo with
      | some img => pyOr img.dataDelayedUrl img.src
      | none => none
    if truthy position ∧ truthy company then
      some {
        position := orEmpty position
        company := orEmpty company
        location := orEmpty location
        date := orEmpty date
        agoTime := orEmpty agoTime
        salary := if truthy salary then orEmpty salary else "Not specified"
        jobUrl := orEmpty jobUrl
        companyLogo := orEmpty companyLogo }
    else
      none

/-- Function `_parse_jobs_from_html` (lines 143-202) applied to the parsed fragment
list: each `<li>` is processed independently in document order, fragments
that raise or lack title/company contribute nothing. -/
def parse_jobs_from_html (fragments : List LiFragment) : List Job :=
  fragments.filterMap parseFragment

/-- A fragment is structurally well-formed for the extractor when no
attribute access inside the `try` block raises: a present `time` element
has a `datetime` attribute and a present link has an `href` attribute. -/
def fragmentWellFormed (li : LiFragment) : Bool :=
  (match li.timeEl with
   | some t => t.datetime.isSome
   | none => true) &&
  (match li.link with
   | some l => l.href.isSome
   | none => true)

/-! ## Filter translation and URL construction -/

/-- Constant `BATCH_SIZE = 25` (line 13). -/
def BATCH_SIZE : Nat := 25

/-- Constant `BASE_URL` (line 12). -/
def BASE_URL : String :=
  "https://www.linkedin.com/jobs-guest/jobs/api/seeMoreJobPostings/search"

/-- Lookup `DATE_FILTERS.get(key, "")` (lines 16-20): missing keys give `""`. -/
def DATE_FILTERS (s : String) : String :=
  if s = "past month" then "r2592000"
  else if s = "past week" then "r604800"
  else if s = "24hr" then "r86400"
  else ""

/-- Lookup `EXPERIENCE_FILTERS.get(key, "")` (lines 21-28). -/
def EXPERIENCE_FILTERS (s : String) : String :=
  if s = "internship" then "1"
  else if s = "entry level" then "2"
  else if s = "associate" then "3"
  else if s = "senior" then "4"
  else if s = "director" then "5"
  else if s = "executive" then "6"
  else ""

/-- Lookup `JOB_TYPE_FILTERS.get(key, "")` (lines 29-38). -/
def JOB_TYPE_FILTERS (s : String) : String :=
  if s = "full time" then "F"
  else if s = "full-time" then "F"
  else if s = "part time" then "P"
  else if s = "part-time" then "P"
  else if s = "contract" then "C"
  else if s = "temporary" then "T"
  else if s = "volunteer" then "V"
  else if s = "internship" then "I"
  else ""

/-- Lookup `REMOTE_FILTERS.get(key, "")` (line 39). -/
def REMOTE_FILTERS (s : String) : String :=
  if s = "on site" then "1"
  else if s = "on-site" then "1"
  else if s = "remote" then "2"
  else if s = "hybrid" then "3"
  else ""

/-- Lookup `SALARY_FILTERS.get(key, "")` (lines 40-46). -/
def SALARY_FILTERS (s : String) : String :=
  if s = "40000" then "1"
  else if s = "60000" then "2"
  else if s = "80000" then "3"
  else if s = "100000" then "4"
  else if s = "120000" then "5"
  else ""

/-- Modelled from the Python standard library: `str.strip()` with no
argument removes leading and trailing whitespace. -/
def pyStrip (s : String) : String :=
  String.mk (((s.data.dropWhile Char.isWhitespace).reverse.dropWhile
    Char.isWhitespace).reverse)

/-- Modelled from the Python standard library: `str.lower()`, lowercasing
character by character (the filter vocabularies are ASCII). -/
def pyLower (s : String) : String :=
  String.mk (s.data.map Char.toLower)

/-- The stored search state of a `LinkedInJobScraper` instance: the fields
set by `__init__` (lines 81-90), already normalized. -/
structure Scraper where
  keyword : String
  location : String
  date_posted : String
  job_type : String
  remote : String
  salary : String
  experience : String
  sort_by : String
  page : Nat
  limit : Nat
deriving DecidableEq, Repr

/-- Constructor `LinkedInJobScraper.__init__` (lines 55-90): strips surrounding
whitespace from every text field and lowercases the enumerated filter
fields (`date_posted`, `job_type`, `remote`, `experience`, `sort_by`);
`keyword`, `location` and `salary` are only stripped. -/
def mkScraper (keyword location date_posted job_type remote salary
    experience sort_by : String) (page limit : Nat) : Scraper where
  keyword := pyStrip keyword
  location := pyStrip location
  date_posted := pyLower (pyStrip date_posted)
  job_type := pyLower (pyStrip job_type)
  remote := pyLower (pyStrip remote)
  salary := pyStrip salary
  experience := pyLower (pyStrip experience)
  sort_by := pyLower (pyStrip sort_by)
  page := page
  limit := limit

/-- Characters `requests.utils.requote_uri` leaves unescaped: the RFC 3986
unreserved characters plus its `safe` set of reserved characters. -/
def isUriSafeChar (c : Char) : Bool :=
  c.isAlphanum || c = '-' || c = '.' || c = '_' || c = '~' ||
  c = '!' || c = '#' || c = '$' || c = '%' || c = '&' ||
  c = Char.ofNat 39 || c = Char.ofNat 40 || c = Char.ofNat 41 ||
  c = '*' || c = '+' || c = ',' || c = '/' || c = ':' ||
  c = ';' || c = '=' || c = '?' || c = '@' || c = Char.ofNat 91 ||
  c = Char.ofNat 93

/-- Upper-case hexadecimal digit of a value below 16. -/
def hexDigit (n : Nat) : Char :=
  if n < 10 then Char.ofNat (48 + n) else Char.ofNat (65 + (n - 10))

/-- UTF-8 code units of one code point. -/
def utf8Bytes (n : Nat) : List Nat :=
  if n < 128 then [n]
  else if n < 2048 then [192 + n / 64, 128 + n % 64]
  else if n < 65536 then [224 + n / 4096, 128 + n / 64 % 64, 128 + n % 64]
  else [240 + n / 262144, 128 + n / 4096 % 64, 128 + n / 64 % 64, 128 + n % 64]

/-- Percent-encoding of one byte. -/
def percentByte (b : Nat) : String :=
  String.mk ['%', hexDigit (b / 16 % 16), hexDigit (b % 16)]

/-- Modelled from the library function `requests.utils.requote_uri` used at
line 138: characters in the safe set pass through, every other character is
percent-encoded byte by byte (UTF-8, upper-case hex). -/
def requote_uri (s : String) : String :=
  String.join (s.data.map fun c =>
    if isUriSafeChar c then String.singleton c
    else String.join ((utf8Bytes c.toNat).map percentByte))

/-- The `params` dict built by `_build_search_url` (lines 97-135), as the
association list of its entries in insertion order (each key is assigned at
most once, so Python dict order is exactly this order). -/
def build_search_params (sc : Scraper) (start : Nat) : List (String × String) :=
  (if sc.keyword ≠ "" then [("keywords", sc.keyword.replace " " "+")] else []) ++
  (if sc.location ≠ "" then [("location", sc.location.replace " " "+")] else []) ++
  (if sc.date_posted ≠ "" then
    (if DATE_FILTERS sc.date_posted ≠ "" then
      [("f_TPR", DATE_FILTERS sc.date_posted)] else []) else []) ++
  (if sc.salary ≠ "" then
    (if SALARY_FILTERS sc.salary ≠ "" then
      [("f_SB2", SALARY_FILTERS sc.salary)] else []) else []) ++
  (if sc.experience ≠ "" then
    (if EXPERIENCE_FILTERS sc.experience ≠ "" then
      [("f_E", EXPERIENCE_FILTERS sc.experience)] else []) else []) ++
  (if sc.remote ≠ "" then
    (if REMOTE_FILTERS sc.remote ≠ "" then
      [("f_WT", REMOTE_FILTERS sc.remote)] else []) else []) ++
  (if sc.job_type ≠ "" then
    (if JOB_TYPE_FILTERS sc.job_type ≠ "" then
      [("f_JT", JOB_TYPE_FILTERS sc.job_type)] else []) else []) ++
  (if sc.sort_by ≠ "" then
    (if sc.sort_by = "recent" then [("sortBy", "DD")]
     else if sc.sort_by = "relevant" then [("sortBy", "R")]
     else []) else []) ++
  [("start", toString (start + sc.page * BATCH_SIZE))]

/-- Function `_build_search_url` (lines 92-141): base URL, `?`, and the
`&`-separated `key=requote_uri(value)` pairs in insertion order. -/
def build_search_url (sc : Scraper) (start : Nat) : String :=
  BASE_URL ++ "?" ++ String.intercalate "&"
    ((build_search_params sc start).map fun kv => kv.1 ++ "=" ++ requote_uri kv.2)

/-! ## The pagination / retry / backoff loop (`search_jobs`, lines 204-263)

One iteration of the `while True:` loop performs one fetch attempt.  The
network is an oracle `src : Nat → AttemptOutcome` giving the outcome of the
`k`-th attempt (`requests.get`, line 229).  The body of a response is
modelled by whether `resp.text` is empty (line 232) together with the list
of `<li>` fragments it parses to.  The `except` clause (line 252) catches
every raised error — network failure, non-200 status (429 included) and
empty body — uniformly, so `search_jobs` itself never raises; the Lean
model is a total function, `none` meaning only that the supplied fuel ran
out before the loop stopped. -/

/-- Outcome of one `requests.get` attempt: either the call raises a
network-level error, or it returns a response with a status code and a
body (modelled by its emptiness flag and its parsed fragment list). -/
inductive AttemptOutcome where
  | netError
  | response (status : Nat) (bodyEmpty : Bool) (fragments : List LiFragment)
deriving DecidableEq, Repr

/-- Classification at lines 229-238: a non-raising 200 response with a
non-empty body yields its fragments; everything else (network error,
status ≠ 200 — 429 included —, empty body) raises and lands in the
`except` clause. -/
def classifyAttempt : AttemptOutcome → Option (List LiFragment)
  | .netError => none
  | .response status bodyEmpty fragments =>
    if status ≠ 200 ∨ bodyEmpty then none else some fragments

/-- Observable sleep events of the loop: the exponential backoff
`time.sleep(2 ** consecutive_errors)` (line 261) with its duration, and the
randomized politeness delay `time.sleep(2 + random.random())` after a
successful batch (line 251). -/
inductive Event where
  | backoffSleep (duration : Nat)
  | politenessSleep
deriving DecidableEq, Repr

/-- Mutable state of one `search_jobs` call: `results`, `start_offset`,
`consecutive_errors` (lines 210-212). -/
structure LoopState where
  results : List Job
  start_offset : Nat
  consecutive_errors : Nat
deriving DecidableEq, Repr

/-- Initial state of a `search_jobs` call (lines 210-212). -/
def initState : LoopState := ⟨[], 0, 0⟩

/-- Result of one loop iteration: continue with a new state (emitting one
sleep event), or break out of the loop with the final state. -/
inductive StepResult where
  | next (st : LoopState) (ev : Event)
  | halt (st : LoopState)
deriving DecidableEq, Repr

/-- One iteration of the `while True:` body (lines 217-262) on outcome
`out`:
* fetch raised (classification `none`, lines 252-261): increment
  `consecutive_errors`; stop if it reached `max_errors = 3`, else sleep
  `2 ** consecutive_errors` and retry the same offset;
* empty batch (lines 239-241): break, state untouched;
* non-empty batch (lines 242-251): extend `results`; if a non-zero limit
  is reached, truncate to it and break; else advance `start_offset` by
  `BATCH_SIZE`, reset `consecutive_errors` and sleep the politeness
  delay. -/
def searchStep (limit : Nat) (out : AttemptOutcome) (st : LoopState) : StepResult :=
  match classifyAttempt out with
  | some fragments =>
    let batch_jobs := parse_jobs_from_html fragments
    if batch_jobs.isEmpty then
      .halt st
    else
      let results := st.results ++ batch_jobs
      if limit ≠ 0 ∧ limit ≤ results.length then
        .halt ⟨results.take limit, st.start_offset, st.consecutive_errors⟩
      else
        .next ⟨results, st.start_offset + BATCH_SIZE, 0⟩ .politenessSleep
  | none =>
    let consecutive_errors := st.consecutive_errors + 1
    if 3 ≤ consecutive_errors then
      .halt ⟨st.results, st.start_offset, consecutive_errors⟩
    else
      .next ⟨st.results, st.start_offset, consecutive_errors⟩
        (.backoffSleep (2 ^ consecutive_errors))

/-- The fueled loop: attempt index `k` selects `src k` as the outcome of
the next fetch; `evs` accumulates the sleep events so far.  Returns the
final state and the event trace when the loop breaks within `fuel`
iterations, `none` when the fuel runs out first (the Python loop is
unbounded; fuel only makes the model total). -/
def runFrom (limit : Nat) (src : Nat → AttemptOutcome) :
    Nat → Nat → LoopState → List Event → Option (LoopState × List Event)
  | 0, _, _, _ => none
  | fuel + 1, k, st, evs =>
    match searchStep limit (src k) st with
    | .halt st' => some (st', evs)
    | .next st' ev => runFrom limit src fuel (k + 1) st' (evs ++ [ev])

/-- Entry point `search_jobs` (line 204): run the loop from the initial
state; on termination the returned value is the `results` field of the
final state (line 263). -/
def search_jobs (limit : Nat) (src : Nat → AttemptOutcome) (fuel : Nat) :
    Option (List Job) :=
  (runFrom limit src fuel 0 initState []).map fun r => r.1.results

/-! ## Sample data for concrete witnesses -/

/-- A well-formed fragment: title and company present. -/
def liOk : LiFragment :=
  ⟨some "Engineer", some "Acme", some "Remote", none, none, none, none⟩

/-- The record extracted from `liOk`: absent fields default to `""` or the
sentinel `"Not specified"`. -/
def jobOk : Job :=
  ⟨"Engineer", "Acme", "Remote", "", "", "Not specified", "", ""⟩

/-- A fragment missing its company element. -/
def liNoCompany : LiFragment :=
  ⟨some "Engineer", none, some "NYC", none, none, none, none⟩

/-- A source whose every response is HTTP 429 with a non-empty body. -/
def src429 : Nat → AttemptOutcome := fun _ => .response 429 false []

/-- A source whose every response is a 200 page with one extractable
record. -/
def srcOk : Nat → AttemptOutcome := fun _ => .response 200 false [liOk]

/-- A source with exactly one non-empty page followed by empty pages. -/
def srcOneBatch : Nat → AttemptOutcome := fun k =>
  if k = 0 then .response 200 false [liOk] else .response 200 false []

/-- A source whose every response is a 200 page with no extractable
records. -/
def srcEmpty : Nat → AttemptOutcome := fun _ => .response 200 false []

/-! ## Helper lemmas -/

/-- Membership in a list that is conditionally empty. -/
theorem mem_ite_nil_iff {α : Type} (p : Prop) [Decidable p] (l : List α) (a : α) :
    (a ∈ if p then l else []) ↔ p ∧ a ∈ l := by
  split <;> simp_all

/-- Membership in a conditional list. -/
theorem mem_ite_iff {α : Type} (p : Prop) [Decidable p] (l₁ l₂ : List α) (a : α) :
    (a ∈ if p then l₁ else l₂) ↔ (p ∧ a ∈ l₁) ∨ (¬p ∧ a ∈ l₂) := by
  split <;> simp_all

/-- The loop body looks at a fetch outcome only through its
classification. -/
theorem searchStep_congr {limit : Nat} {out out' : AttemptOutcome} (st : LoopState)
    (h : classifyAttempt out = classifyAttempt out') :
    searchStep limit out st = searchStep limit out' st := by
  unfold searchStep
  rw [h]

/-- An iteration that breaks out of the loop never changes the offset. -/
theorem searchStep_halt_offset {limit : Nat} {out : AttemptOutcome} {st st' : LoopState}
    (h : searchStep limit out st = .halt st') : st'.start_offset = st.start_offset := by
  unfold searchStep at h
  cases hc : classifyAttempt out <;> rw [hc] at h <;> dsimp at h
  · split at h
    · cases h; rfl
    · cases h
  · split at h
    · cases h; rfl
    · split at h
      · cases h; rfl
      · cases h

/-- Inversion of a continuing iteration: either a successful non-empty
batch below the limit (offset advanced by `BATCH_SIZE`, failure counter
reset, politeness sleep), or a non-terminal failure (offset and results
unchanged, counter incremented, backoff sleep of `2 ^ counter`). -/
theorem searchStep_next_inv {limit : Nat} {out : AttemptOutcome} {st st' : LoopState}
    {ev : Event} (h : searchStep limit out st = .next st' ev) :
    (∃ frags, classifyAttempt out = some frags ∧
       parse_jobs_from_html frags ≠ [] ∧
       ¬(limit ≠ 0 ∧ limit ≤ (st.results ++ parse_jobs_from_html frags).length) ∧
       st' = ⟨st.results ++ parse_jobs_from_html frags, st.start_offset + BATCH_SIZE, 0⟩ ∧
       ev = .politenessSleep) ∨
    (classifyAttempt out = none ∧ st.consecutive_errors + 1 < 3 ∧
       st' = ⟨st.results, st.start_offset, st.consecutive_errors + 1⟩ ∧
       ev = .backoffSleep (2 ^ (st.consecutive_errors + 1))) := by
  unfold searchStep at h
  cases hc : classifyAttempt out <;> rw [hc] at h <;> dsimp at h
  · split at h
    · cases h
    · cases h
      right
      refine ⟨rfl, by omega, rfl, rfl⟩
  · rename_i frags
    split at h
    · cases h
    · split at h
      · cases h
      · cases h
        left
        refine ⟨frags, rfl, ?_, by assumption, rfl, rfl⟩
        rename_i hne _
        simpa [List.isEmpty_iff] using hne

/-- Inversion of a halting iteration: empty batch (state unchanged),
limit reached (results truncated, offset and counter unchanged), or third
consecutive failure (results and offset unchanged). -/
theorem searchStep_halt_inv {limit : Nat} {out : AttemptOutcome} {st st' : LoopState}
    (h : searchStep limit out st = .halt st') :
    (∃ frags, classifyAttempt out = some frags ∧
       parse_jobs_from_html frags = [] ∧ st' = st) ∨
    (∃ frags, classifyAttempt out = some frags ∧
       parse_jobs_from_html frags ≠ [] ∧ limit ≠ 0 ∧
       limit ≤ (st.results ++ parse_jobs_from_html frags).length ∧
       st' = ⟨(st.results ++ parse_jobs_from_html frags).take limit,
              st.start_offset, st.consecutive_errors⟩) ∨
    (classifyAttempt out = none ∧ 3 ≤ st.consecutive_errors + 1 ∧
       st' = ⟨st.results, st.start_offset, st.consecutive_errors + 1⟩) := by
  unfold searchStep at h
  cases hc : classifyAttempt out <;> rw [hc] at h <;> dsimp at h
  · split at h
    · cases h
      right; right
      exact ⟨rfl, by assumption, rfl⟩
    · cases h
  · rename_i frags
    split at h
    · cases h
      left
      refine ⟨frags, rfl, ?_, rfl⟩
      rename_i he
      simpa [List.isEmpty_iff] using he
    · split at h
      · cases h
        right; left
        rename_i hne hcond
        refine ⟨frags, rfl, by simpa [List.isEmpty_iff] using hne, hcond.1, hcond.2, rfl⟩
      · cases h

/-- The accumulated record count stays below a non-zero limit across the
whole run. -/
theorem runFrom_length_le (limit : Nat) (src : Nat → AttemptOutcome) (hl : limit ≠ 0) :
    ∀ (fuel k : Nat) (st : LoopState) (evs : List Event) (st' : LoopState)
      (evs' : List Event),
      st.results.length ≤ limit →
      runFrom limit src fuel k st evs = some (st', evs') →
      st'.results.length ≤ limit := by
  intro fuel
  induction fuel with
  | zero => intro k st evs st' evs' _ h; simp [runFrom] at h
  | succ n ih =>
    intro k st evs st' evs' hle h
    unfold runFrom at h
    cases hs : searchStep limit (src k) st with
    | halt st2 =>
      rw [hs] at h; cases h
      rcases searchStep_halt_inv hs with ⟨f, _, _, he⟩ | ⟨f, _, _, _, _, he⟩ | ⟨_, _, he⟩ <;>
        subst he <;> simp_all
    | next st2 ev =>
      rw [hs] at h
      refine ih (k + 1) st2 (evs ++ [ev]) st' evs' ?_ h
      rcases searchStep_next_inv hs with ⟨f, _, _, hnl, he, _⟩ | ⟨_, _, he, _⟩ <;>
        subst he <;> simp_all
      omega

/-- The batch offset never decreases across the run. -/
theorem runFrom_offset_mono (limit : Nat) (src : Nat → AttemptOutcome) :
    ∀ (fuel k : Nat) (st : LoopState) (evs : List Event) (st' : LoopState)
      (evs' : List Event),
      runFrom limit src fuel k st evs = some (st', evs') →
      st.start_offset ≤ st'.start_offset := by
  intro fuel
  induction fuel with
  | zero => intro k st evs st' evs' h; simp [runFrom] at h
  | succ n ih =>
    intro k st evs st' evs' h
    unfold runFrom at h
    cases hs : searchStep limit (src k) st with
    | halt st2 =>
      rw [hs] at h; cases h
      exact le_of_eq (searchStep_halt_offset hs).symm
    | next st2 ev =>
      rw [hs] at h
      have h2 := ih (k + 1) st2 (evs ++ [ev]) st' evs' h
      rcases searchStep_next_inv hs with ⟨f, _, _, _, he, _⟩ | ⟨_, _, he, _⟩ <;>
        subst he <;> simp at h2 <;> omega

/-- With a positive limit the loop halts within its fuel as soon as the
fuel dominates the decreasing measure
`3 * (limit - #records) + (3 - consecutive errors)`. -/
theorem runFrom_isSome_of_measure (limit : Nat) (src : Nat → AttemptOutcome)
    (hl : 0 < limit) :
    ∀ (fuel k : Nat) (st : LoopState) (evs : List Event),
      st.consecutive_errors ≤ 2 →
      3 * (limit - st.results.length) + (3 - st.consecutive_errors) ≤ fuel →
      (runFrom limit src fuel k st evs).isSome = true := by
  intro fuel
  induction fuel with
  | zero => intro k st evs hce hm; omega
  | succ n ih =>
    intro k st evs hce hm
    unfold runFrom
    cases hs : searchStep limit (src k) st with
    | halt st2 => simp
    | next st2 ev =>
      rcases searchStep_next_inv hs with ⟨f, _, hne, hnl, he, _⟩ | ⟨_, hlt, he, _⟩
      · have hb : 0 < (parse_jobs_from_html f).length := List.length_pos.mpr hne
        have hm2 : st2.results.length < limit := by
          subst he
          simp only [List.length_append] at hnl ⊢
          omega
        refine ih (k + 1) st2 (evs ++ [ev]) ?_ ?_
        · subst he; exact Nat.zero_le 2
        · subst he
          simp only [List.length_append] at hm2 ⊢
          omega
      · refine ih (k + 1) st2 (evs ++ [ev]) ?_ ?_ <;> subst he <;> simp only <;> omega

/-- With limit `0` and a source that always produces a non-empty batch,
the loop never halts, whatever the fuel. -/
theorem runFrom_none_of_all_nonempty (src : Nat → AttemptOutcome)
    (hsrc : ∀ k, ∃ frags, classifyAttempt (src k) = some frags ∧
      parse_jobs_from_html frags ≠ []) :
    ∀ (fuel k : Nat) (st : LoopState) (evs : List Event),
      runFrom 0 src fuel k st evs = none := by
  intro fuel
  induction fuel with
  | zero => intro k st evs; rfl
  | succ n ih =>
    intro k st evs
    obtain ⟨frags, hok, hne⟩ := hsrc k
    simp [runFrom, searchStep, hok, hne, ih]

/-- With limit `0` the truncation halt is impossible, so every halting
run halts on its final attempt either because that attempt succeeded with
zero extracted records, or because it failed and the consecutive-failure
budget reached 3. -/
theorem runFrom_halt_reason (src : Nat → AttemptOutcome) :
    ∀ (fuel k : Nat) (st : LoopState) (evs : List Event) (st' : LoopState)
      (evs' : List Event),
      runFrom 0 src fuel k st evs = some (st', evs') →
      ∃ j, k ≤ j ∧
        ((∃ frags, classifyAttempt (src j) = some frags ∧
           parse_jobs_from_html frags = []) ∨
         (classifyAttempt (src j) = none ∧ 3 ≤ st'.consecutive_errors)) := by
  intro fuel
  induction fuel with
  | zero => intro k st evs st' evs' h; simp [runFrom] at h
  | succ n ih =>
    intro k st evs st' evs' h
    unfold runFrom at h
    cases hs : searchStep 0 (src k) st with
    | halt st2 =>
      rw [hs] at h; cases h
      rcases searchStep_halt_inv hs with ⟨f, hok, hpe, _⟩ | ⟨f, _, _, hz, _, _⟩ |
        ⟨hfail, hce, he⟩
      · exact ⟨k, le_refl k, Or.inl ⟨f, hok, hpe⟩⟩
      · exact absurd rfl hz
      · subst he
        exact ⟨k, le_refl k, Or.inr ⟨hfail, hce⟩⟩
    | next st2 ev =>
      rw [hs] at h
      obtain ⟨j, hj, hcase⟩ := ih (k + 1) st2 (evs ++ [ev]) st' evs' h
      exact ⟨j, by omega, hcase⟩

/-- With limit `0`, a source that delivers the non-empty batches `bs` and
then an empty page makes the loop accumulate every extracted record of
every batch, untruncated, and stop on the empty page. -/
theorem runFrom_exhausted (src : Nat → AttemptOutcome) :
    ∀ (bs : List (List LiFragment)) (k : Nat) (st : LoopState) (evs : List Event),
      (∀ i (h : i < bs.length), classifyAttempt (src (k + i)) = some (bs.get ⟨i, h⟩)) →
      (∃ fe, classifyAttempt (src (k + bs.length)) = some fe ∧
        parse_jobs_from_html fe = []) →
      (∀ b ∈ bs, parse_jobs_from_html b ≠ []) →
      (runFrom 0 src (bs.length + 1) k st evs).map (fun r => r.1.results) =
        some (st.results ++ (bs.map parse_jobs_from_html).flatten) := by
  intro bs
  induction bs with
  | nil =>
    intro k st evs _ hEnd _
    obtain ⟨fe, hfe, hpe⟩ := hEnd
    rw [show k + ([] : List (List LiFragment)).length = k by simp] at hfe
    simp [runFrom, searchStep, hfe, hpe]
  | cons b bs ih =>
    intro k st evs hAll hEnd hne
    have hb : classifyAttempt (src k) = some b := by
      have := hAll 0 (by simp)
      simpa using this
    have hbne : parse_jobs_from_html b ≠ [] := hne b (by simp)
    have hstep : runFrom 0 src (bs.length + 1 + 1) k st evs =
        runFrom 0 src (bs.length + 1) (k + 1)
          ⟨st.results ++ parse_jobs_from_html b, st.start_offset + BATCH_SIZE, 0⟩
          (evs ++ [.politenessSleep]) := by
      simp [runFrom, searchStep, hb, hbne]
    have hAll2 : ∀ i (h : i < bs.length),
        classifyAttempt (src (k + 1 + i)) = some (bs.get ⟨i, h⟩) := by
      intro i h
      have := hAll (i + 1) (by simpa using Nat.succ_lt_succ h)
      rw [show k + (i + 1) = k + 1 + i by omega] at this
      simpa using this
    have hEnd2 : ∃ fe, classifyAttempt (src (k + 1 + bs.length)) = some fe ∧
        parse_jobs_from_html fe = [] := by
      obtain ⟨fe, hfe, hpe⟩ := hEnd
      exact ⟨fe, by rw [show k + 1 + bs.length = k + (b :: bs).length by simp; omega]; exact hfe, hpe⟩
    have := ih (k + 1)
      ⟨st.results ++ parse_jobs_from_html b, st.start_offset + BATCH_SIZE, 0⟩
      (evs ++ [.politenessSleep]) hAll2 hEnd2 (fun x hx => hne x (by simp [hx]))
    rw [show (b :: bs).length + 1 = bs.length + 1 + 1 by simp] at *
    rw [hstep, this]
    simp

/-- Presence of the `keywords` parameter. -/
theorem params_keywords_iff (sc : Scraper) (start : Nat) :
    (∃ v, ("keywords", v) ∈ build_search_params sc start) ↔ sc.keyword ≠ "" := by
  simp [build_search_params, List.mem_append, mem_ite_nil_iff, mem_ite_iff]

/-- Presence of the `location` parameter. -/
theorem params_location_iff (sc : Scraper) (start : Nat) :
    (∃ v, ("location", v) ∈ build_search_params sc start) ↔ sc.location ≠ "" := by
  simp [build_search_params, List.mem_append, mem_ite_nil_iff, mem_ite_iff]

/-- Presence of the date filter parameter `f_TPR`. -/
theorem params_fTPR_iff (sc : Scraper) (start : Nat) :
    (∃ v, ("f_TPR", v) ∈ build_search_params sc start) ↔
      (sc.date_posted ≠ "" ∧ DATE_FILTERS sc.date_posted ≠ "") := by
  simp [build_search_params, List.mem_append, mem_ite_nil_iff, mem_ite_iff]

/-- Presence of the salary filter parameter `f_SB2`. -/
theorem params_fSB2_iff (sc : Scraper) (start : Nat) :
    (∃ v, ("f_SB2", v) ∈ build_search_params sc start) ↔
      (sc.salary ≠ "" ∧ SALARY_FILTERS sc.salary ≠ "") := by
  simp [build_search_params, List.mem_append, mem_ite_nil_iff, mem_ite_iff]

/-- Presence of the experience filter parameter `f_E`. -/
theorem params_fE_iff (sc : Scraper) (start : Nat) :
    (∃ v, ("f_E", v) ∈ build_search_params sc start) ↔
      (sc.experience ≠ "" ∧ EXPERIENCE_FILTERS sc.experience ≠ "") := by
  simp [build_search_params, List.mem_append, mem_ite_nil_iff, mem_ite_iff]

/-- Presence of the remote filter parameter `f_WT`. -/
theorem params_fWT_iff (sc : Scraper) (start : Nat) :
    (∃ v, ("f_WT", v) ∈ build_search_params sc start) ↔
      (sc.remote ≠ "" ∧ REMOTE_FILTERS sc.remote ≠ "") := by
  simp [build_search_params, List.mem_append, mem_ite_nil_iff, mem_ite_iff]

/-- Presence of the job type filter parameter `f_JT`. -/
theorem params_fJT_iff (sc : Scraper) (start : Nat) :
    (∃ v, ("f_JT", v) ∈ build_search_params sc start) ↔
      (sc.job_type ≠ "" ∧ JOB_TYPE_FILTERS sc.job_type ≠ "") := by
  simp [build_search_params, List.mem_append, mem_ite_nil_iff, mem_ite_iff]

/-- Presence of the `sortBy` parameter. -/
theorem params_sortBy_iff (sc : Scraper) (start : Nat) :
    (∃ v, ("sortBy", v) ∈ build_search_params sc start) ↔
      (sc.sort_by ≠ "" ∧ (sc.sort_by = "recent" ∨ sc.sort_by = "relevant")) := by
  by_cases h1 : sc.sort_by = "recent" <;> by_cases h2 : sc.sort_by = "relevant" <;>
    simp [build_search_params, List.mem_append, mem_ite_nil_iff, mem_ite_iff, h1, h2]

/-- The absolute start offset parameter is always present and equals the
batch offset plus `page * BATCH_SIZE`. -/
theorem params_start_mem (sc : Scraper) (start : Nat) :
    ("start", toString (start + sc.page * BATCH_SIZE)) ∈ build_search_params sc start := by
  simp [build_search_params]

/-- For a filter map that sends `""` to `""`, being recognized is
equivalent to being non-empty and recognized. -/
theorem ne_empty_and_recognized {F : String → String} (hF : F "" = "")
    (x : String) : (x ≠ "" ∧ F x ≠ "") ↔ F x ≠ "" := by
  constructor
  · exact fun hx => hx.2
  · intro h
    refine ⟨?_, h⟩
    intro hx
    subst hx
    exact h hF

/-- The built URL depends only on the filter fields and the page, never on
the stored limit: equal fields give byte-identical URLs. -/
theorem build_search_url_congr (sc₁ sc₂ : Scraper) (start : Nat)
    (h1 : sc₁.keyword = sc₂.keyword) (h2 : sc₁.location = sc₂.location)
    (h3 : sc₁.date_posted = sc₂.date_posted) (h4 : sc₁.job_type = sc₂.job_type)
    (h5 : sc₁.remote = sc₂.remote) (h6 : sc₁.salary = sc₂.salary)
    (h7 : sc₁.experience = sc₂.experience) (h8 : sc₁.sort_by = sc₂.sort_by)
    (h9 : sc₁.page = sc₂.page) :
    build_search_url sc₁ start = build_search_url sc₂ start := by
  simp only [build_search_url, build_search_params, h1, h2, h3, h4, h5, h6, h7, h8, h9]

/-! ## The claims -/

/-- C1: with a positive limit, `search_jobs` returns at most `limit`
records over any source behavior; on the batch where the accumulated count
reaches or exceeds the non-zero limit, the result is truncated to exactly
`limit` records and the loop halts at once even though the batch yielded
more; with limit 0 no truncation happens and, once the source is
exhausted (an empty page after the non-empty batches `bs`), every
extracted record of every batch is returned. -/
theorem claim_C1_limit_enforcement :
    (∀ (limit : Nat) (src : Nat → AttemptOutcome) (fuel : Nat) (st' : LoopState)
       (evs' : List Event), 0 < limit →
       runFrom limit src fuel 0 initState [] = some (st', evs') →
       st'.results.length ≤ limit) ∧
    (∀ (limit : Nat) (out : AttemptOutcome) (st : LoopState) (frags : List LiFragment),
       classifyAttempt out = some frags →
       parse_jobs_from_html frags ≠ [] →
       0 < limit →
       limit ≤ (st.results ++ parse_jobs_from_html frags).length →
       searchStep limit out st =
         .halt ⟨(st.results ++ parse_jobs_from_html frags).take limit,
                st.start_offset, st.consecutive_errors⟩ ∧
       ((st.results ++ parse_jobs_from_html frags).take limit).length = limit) ∧
    (∀ (src : Nat → AttemptOutcome) (bs : List (List LiFragment)) (k : Nat)
       (st : LoopState) (evs : List Event),
       (∀ i (h : i < bs.length), classifyAttempt (src (k + i)) = some (bs.get ⟨i, h⟩)) →
       (∃ fe, classifyAttempt (src (k + bs.length)) = some fe ∧
         parse_jobs_from_html fe = []) →
       (∀ b ∈ bs, parse_jobs_from_html b ≠ []) →
       (runFrom 0 src (bs.length + 1) k st evs).map (fun r => r.1.results) =
         some (st.results ++ (bs.map parse_jobs_from_html).flatten)) := by
  refine ⟨?_, ?_, ?_⟩
  · intro limit src fuel st' evs' hl h
    exact runFrom_length_le limit src (by omega) fuel 0 initState [] st' evs'
      (by simp [initState]) h
  · intro limit out st frags hok hne hl hlen
    have hb : ¬((parse_jobs_from_html frags).isEmpty = true) := by
      simpa [List.isEmpty_iff] using hne
    have hcond : limit ≠ 0 ∧ limit ≤ (st.results ++ parse_jobs_from_html frags).length :=
      ⟨by omega, hlen⟩
    constructor
    · simp [searchStep, hok, hb, hcond]
      simpa using hlen
    · simp only [List.length_take, List.length_append] at hlen ⊢
      omega
  · exact runFrom_exhausted

/-- Witness for C1 at concrete inputs: a one-record source with limit 1
halts with one record; the truncating step on a full batch; the
exhausted one-batch source with limit 0 returns the whole batch. -/
theorem claim_C1_witness :
    ((⟨[jobOk], 0, 0⟩ : LoopState).results.length ≤ 1) ∧
    (searchStep 1 (.response 200 false [liOk]) initState =
       .halt ⟨(initState.results ++ parse_jobs_from_html [liOk]).take 1,
              initState.start_offset, initState.consecutive_errors⟩ ∧
     ((initState.results ++ parse_jobs_from_html [liOk]).take 1).length = 1) ∧
    ((runFrom 0 srcOneBatch ([[liOk]].length + 1) 0 initState []).map
        (fun r => r.1.results) =
      some (initState.results ++ ([[liOk]].map parse_jobs_from_html).flatten)) := by
  refine ⟨?_, ?_, ?_⟩
  · exact claim_C1_limit_enforcement.1 1 srcOk 2 ⟨[jobOk], 0, 0⟩ [] (by decide) (by decide)
  · exact claim_C1_limit_enforcement.2.1 1 (.response 200 false [liOk]) initState [liOk]
      (by decide) (by decide) (by decide) (by decide)
  · exact claim_C1_limit_enforcement.2.2 srcOneBatch [[liOk]] 0 initState []
      (by
        intro i h
        simp only [List.length_singleton] at h
        have hi : i = 0 := by omega
        subst hi
        rfl)
      ⟨[], by decide, rfl⟩
      (by intro b hb; simp only [List.mem_singleton] at hb; subst hb; decide)

/-- C2: when the consecutive-failure counter is about to reach the fixed
maximum of 3 at some offset, the loop halts and returns exactly the
records accumulated so far at the unchanged offset, raising nothing; and
a first batch answered by HTTP 429 three times in a row produces the
empty result with the offset still 0 (and exactly the two backoff sleeps
in between). -/
theorem claim_C2_failure_budget :
    (∀ (limit : Nat) (src : Nat → AttemptOutcome) (fuel k : Nat) (st : LoopState)
       (evs : List Event),
       classifyAttempt (src k) = none →
       2 ≤ st.consecutive_errors →
       runFrom limit src (fuel + 1) k st evs =
         some (⟨st.results, st.start_offset, st.consecutive_errors + 1⟩, evs)) ∧
    (∀ (limit fuel : Nat),
       runFrom limit src429 (fuel + 3) 0 initState [] =
         some (⟨[], 0, 3⟩, [.backoffSleep 2, .backoffSleep 4])) := by
  constructor
  · intro limit src fuel k st evs hfail hce
    have h3 : 3 ≤ st.consecutive_errors + 1 := by omega
    simp [runFrom, searchStep, hfail, h3]
  · intro limit fuel
    simp [runFrom, searchStep, src429, classifyAttempt, initState]

/-- Witness for C2 at concrete inputs: a third failure on an accumulated
state returns it unchanged; three 429s from the start yield the empty
list, offset 0. -/
theorem claim_C2_witness :
    (runFrom 9 src429 1 5 ⟨[jobOk], 25, 2⟩ [] = some (⟨[jobOk], 25, 3⟩, [])) ∧
    (runFrom 0 src429 3 0 initState [] =
       some (⟨[], 0, 3⟩, [.backoffSleep 2, .backoffSleep 4])) := by
  constructor
  · exact claim_C2_failure_budget.1 9 src429 0 5 ⟨[jobOk], 25, 2⟩ [] (by decide) (by decide)
  · exact claim_C2_failure_budget.2 0 0

/-- C3: the batch offset moves by 0 or by `BATCH_SIZE` in every continuing
iteration; it is unchanged by every failed attempt and by every halting
iteration, advances by exactly `BATCH_SIZE` on every continuing successful
(hence non-empty) batch, and is monotonically non-decreasing over any
run. -/
theorem claim_C3_offset_invariant :
    (∀ (limit : Nat) (out : AttemptOutcome) (st st' : LoopState) (ev : Event),
       searchStep limit out st = .next st' ev →
       st'.start_offset = st.start_offset ∨
       st'.start_offset = st.start_offset + BATCH_SIZE) ∧
    (∀ (limit : Nat) (out : AttemptOutcome) (st st' : LoopState) (ev : Event),
       classifyAttempt out = none →
       searchStep limit out st = .next st' ev →
       st'.start_offset = st.start_offset) ∧
    (∀ (limit : Nat) (out : AttemptOutcome) (st st' : LoopState) (ev : Event)
       (frags : List LiFragment),
       classifyAttempt out = some frags →
       searchStep limit out st = .next st' ev →
       st'.start_offset = st.start_offset + BATCH_SIZE) ∧
    (∀ (limit : Nat) (out : AttemptOutcome) (st st' : LoopState),
       searchStep limit out st = .halt st' →
       st'.start_offset = st.start_offset) ∧
    (∀ (limit : Nat) (src : Nat → AttemptOutcome) (fuel k : Nat) (st : LoopState)
       (evs : List Event) (st' : LoopState) (evs' : List Event),
       runFrom limit src fuel k st evs = some (st', evs') →
       st.start_offset ≤ st'.start_offset) := by
  refine ⟨?_, ?_, ?_, ?_, ?_⟩
  · intro limit out st st' ev h
    rcases searchStep_next_inv h with ⟨f, _, _, _, he, _⟩ | ⟨_, _, he, _⟩ <;> subst he
    · exact Or.inr rfl
    · exact Or.inl rfl
  · intro limit out st st' ev hfail h
    rcases searchStep_next_inv h with ⟨f, hok, _, _, he, _⟩ | ⟨_, _, he, _⟩
    · rw [hfail] at hok; cases hok
    · subst he; rfl
  · intro limit out st st' ev frags hok h
    rcases searchStep_next_inv h with ⟨f, _, _, _, he, _⟩ | ⟨hfail, _, he, _⟩
    · subst he; rfl
    · rw [hfail] at hok; cases hok
  · intro limit out st st' h
    exact searchStep_halt_offset h
  · intro limit src fuel k st evs st' evs' h
    exact runFrom_offset_mono limit src fuel k st evs st' evs' h

/-- Witness for C3 at concrete inputs: a successful batch advances the
offset from 0 to 25, a failed attempt keeps it at 0, and a full run never
decreases it. -/
theorem claim_C3_witness :
    ((⟨[jobOk], 25, 0⟩ : LoopState).start_offset = initState.start_offset + BATCH_SIZE) ∧
    ((⟨[], 0, 1⟩ : LoopState).start_offset = initState.start_offset) ∧
    (initState.start_offset ≤ (⟨[jobOk], 25, 0⟩ : LoopState).start_offset) := by
  refine ⟨?_, ?_, ?_⟩
  · exact claim_C3_offset_invariant.2.2.1 0 (.response 200 false [liOk]) initState
      ⟨[jobOk], 25, 0⟩ .politenessSleep [liOk] (by decide) (by decide)
  · exact claim_C3_offset_invariant.2.1 0 (.response 429 false []) initState
      ⟨[], 0, 1⟩ (.backoffSleep 2) (by decide) (by decide)
  · exact claim_C3_offset_invariant.2.2.2.2 0 srcOneBatch 3 0 initState []
      ⟨[jobOk], 25, 0⟩ [.politenessSleep] (by decide)

/-- C4: before retry attempt `i` (the `i`-th consecutive failure, counter
going from `i - 1` to `i`) the loop sleeps exactly `2 ^ i` time units,
whatever kind of failure occurred; and the loop treats every failure kind
identically — two sources whose attempts classify the same way (for
instance HTTP 429 versus any other error) produce identical runs,
sleeps included. -/
theorem claim_C4_backoff :
    (∀ (limit : Nat) (out : AttemptOutcome) (st st' : LoopState) (ev : Event),
       classifyAttempt out = none →
       searchStep limit out st = .next st' ev →
       ev = .backoffSleep (2 ^ (st.consecutive_errors + 1))) ∧
    (∀ (limit : Nat) (src src' : Nat → AttemptOutcome),
       (∀ k, classifyAttempt (src k) = classifyAttempt (src' k)) →
       ∀ (fuel k : Nat) (st : LoopState) (evs : List Event),
         runFrom limit src fuel k st evs = runFrom limit src' fuel k st evs) := by
  constructor
  · intro limit out st st' ev hfail h
    rcases searchStep_next_inv h with ⟨f, hok, _, _, _, _⟩ | ⟨_, _, _, hev⟩
    · rw [hfail] at hok; cases hok
    · exact hev
  · intro limit src src' hsrc fuel
    induction fuel with
    | zero => intro k st evs; rfl
    | succ n ih =>
      intro k st evs
      unfold runFrom
      rw [searchStep_congr st (hsrc k)]
      cases hs : searchStep limit (src' k) st with
      | halt st2 => rfl
      | next st2 ev => exact ih (k + 1) st2 (evs ++ [ev])

/-- Witness for C4 at concrete inputs: the first retry sleeps
`2 ^ 1 = 2`; a constant-429 source and a constant network-error source
produce the same run. -/
theorem claim_C4_witness :
    (Event.backoffSleep 2 = .backoffSleep (2 ^ (initState.consecutive_errors + 1))) ∧
    (runFrom 7 src429 5 0 initState [] =
       runFrom 7 (fun _ => .netError) 5 0 initState []) := by
  constructor
  · exact claim_C4_backoff.1 0 (.response 429 false []) initState ⟨[], 0, 1⟩
      (.backoffSleep 2) (by decide) (by decide)
  · exact claim_C4_backoff.2 7 src429 (fun _ => .netError) (fun k => rfl)
      5 0 initState []

/-- C9: a successful fetch whose page yields zero extracted records makes
the very next iteration halt, and the run returns the accumulated state
untouched — no records added, no truncation, no offset change, and no
further event. -/
theorem claim_C9_empty_batch (limit : Nat) (src : Nat → AttemptOutcome)
    (fuel k : Nat) (st : LoopState) (evs : List Event) (frags : List LiFragment)
    (hok : classifyAttempt (src k) = some frags)
    (hempty : parse_jobs_from_html frags = []) :
    searchStep limit (src k) st = .halt st ∧
    runFrom limit src (fuel + 1) k st evs = some (st, evs) := by
  constructor
  · simp [searchStep, hok, hempty]
  · simp [runFrom, searchStep, hok, hempty]

/-- Witness for C9 at concrete inputs: a 200 page with no fragments halts
the run with the initial state returned unmodified. -/
theorem claim_C9_witness :
    searchStep 3 (srcEmpty 0) initState = .halt initState ∧
    runFrom 3 srcEmpty 1 0 initState [] = some (initState, []) :=
  claim_C9_empty_batch 3 srcEmpty 0 0 initState [] [] rfl rfl

/-- C10: with a positive limit the loop always halts within `3·limit + 4`
iterations, whatever the source does; with limit 0, every run that halts
does so only because its final attempt produced an empty batch (source
exhausted) or failed with the consecutive-failure budget at 3 — and such
a halt is not guaranteed: a source whose every attempt yields a non-empty
batch makes the loop run forever. -/
theorem claim_C10_termination :
    (∀ (limit : Nat) (src : Nat → AttemptOutcome), 0 < limit →
       (runFrom limit src (3 * limit + 4) 0 initState []).isSome = true) ∧
    (∀ (src : Nat → AttemptOutcome) (fuel k : Nat) (st : LoopState)
       (evs : List Event) (st' : LoopState) (evs' : List Event),
       runFrom 0 src fuel k st evs = some (st', evs') →
       ∃ j, k ≤ j ∧
         ((∃ frags, classifyAttempt (src j) = some frags ∧
            parse_jobs_from_html frags = []) ∨
          (classifyAttempt (src j) = none ∧ 3 ≤ st'.consecutive_errors))) ∧
    (∀ (src : Nat → AttemptOutcome),
       (∀ k, ∃ frags, classifyAttempt (src k) = some frags ∧
         parse_jobs_from_html frags ≠ []) →
       ∀ (fuel k : Nat) (st : LoopState) (evs : List Event),
         runFrom 0 src fuel k st evs = none) := by
  refine ⟨?_, runFrom_halt_reason, runFrom_none_of_all_nonempty⟩
  intro limit src hl
  refine runFrom_isSome_of_measure limit src hl (3 * limit + 4) 0 initState []
    ?_ ?_ <;> dsimp [initState] <;> omega

/-- Witness for C10 at concrete inputs: limit 1 halts within 7 iterations
even under constant 429s; a limit-0 run halting on an empty page and a
limit-0 run halting on the exhausted failure budget both exhibit their
halt reason; limit 0 under an endless non-empty source never halts. -/
theorem claim_C10_witness :
    ((runFrom 1 src429 7 0 initState []).isSome = true) ∧
    (∃ j, 0 ≤ j ∧
      ((∃ frags, classifyAttempt (srcEmpty j) = some frags ∧
         parse_jobs_from_html frags = []) ∨
       (classifyAttempt (srcEmpty j) = none ∧ 3 ≤ initState.consecutive_errors))) ∧
    (∃ j, 0 ≤ j ∧
      ((∃ frags, classifyAttempt (src429 j) = some frags ∧
         parse_jobs_from_html frags = []) ∨
       (classifyAttempt (src429 j) = none ∧
        3 ≤ (⟨[], 0, 3⟩ : LoopState).consecutive_errors))) ∧
    (runFrom 0 srcOk 5 0 initState [] = none) := by
  refine ⟨?_, ?_, ?_, ?_⟩
  · exact claim_C10_termination.1 1 src429 (by decide)
  · exact claim_C10_termination.2.1 srcEmpty 1 0 initState [] initState [] (by decide)
  · exact claim_C10_termination.2.1 src429 3 0 initState [] ⟨[], 0, 3⟩
      [.backoffSleep 2, .backoffSleep 4] (by decide)
  · exact claim_C10_termination.2.2 srcOk (fun k => ⟨[liOk], rfl, by decide⟩)
      5 0 initState []

/-- C5: filter translation is total and permissive — for any raw filter
strings a URL is built, and a query parameter for an enumerated dimension
appears iff the stripped, lowercased value is recognized by that
dimension's vocabulary (empty or unrecognized values contribute no
constraint); moreover matching is insensitive to surrounding whitespace
and letter case: raw values that agree after strip/lower produce
byte-identical URLs. -/
theorem claim_C5_filter_translation :
    (∀ (k l d j r s e so : String) (p lim start : Nat),
       ((∃ v, ("f_TPR", v) ∈
           build_search_params (mkScraper k l d j r s e so p lim) start) ↔
         DATE_FILTERS (pyLower (pyStrip d)) ≠ "") ∧
       ((∃ v, ("f_SB2", v) ∈
           build_search_params (mkScraper k l d j r s e so p lim) start) ↔
         SALARY_FILTERS (pyStrip s) ≠ "") ∧
       ((∃ v, ("f_E", v) ∈
           build_search_params (mkScraper k l d j r s e so p lim) start) ↔
         EXPERIENCE_FILTERS (pyLower (pyStrip e)) ≠ "") ∧
       ((∃ v, ("f_WT", v) ∈
           build_search_params (mkScraper k l d j r s e so p lim) start) ↔
         REMOTE_FILTERS (pyLower (pyStrip r)) ≠ "") ∧
       ((∃ v, ("f_JT", v) ∈
           build_search_params (mkScraper k l d j r s e so p lim) start) ↔
         JOB_TYPE_FILTERS (pyLower (pyStrip j)) ≠ "") ∧
       ((∃ v, ("sortBy", v) ∈
           build_search_params (mkScraper k l d j r s e so p lim) start) ↔
         (pyLower (pyStrip so) = "recent" ∨ pyLower (pyStrip so) = "relevant"))) ∧
    (∀ (k l d₁ d₂ j₁ j₂ r₁ r₂ s₁ s₂ e₁ e₂ so₁ so₂ : String) (p lim start : Nat),
       pyLower (pyStrip d₁) = pyLower (pyStrip d₂) →
       pyLower (pyStrip j₁) = pyLower (pyStrip j₂) →
       pyLower (pyStrip r₁) = pyLower (pyStrip r₂) →
       pyStrip s₁ = pyStrip s₂ →
       pyLower (pyStrip e₁) = pyLower (pyStrip e₂) →
       pyLower (pyStrip so₁) = pyLower (pyStrip so₂) →
       build_search_url (mkScraper k l d₁ j₁ r₁ s₁ e₁ so₁ p lim) start =
         build_search_url (mkScraper k l d₂ j₂ r₂ s₂ e₂ so₂ p lim) start) := by
  constructor
  · intro k l d j r s e so p lim start
    refine ⟨?_, ?_, ?_, ?_, ?_, ?_⟩
    · rw [params_fTPR_iff]
      exact ne_empty_and_recognized rfl _
    · rw [params_fSB2_iff]
      exact ne_empty_and_recognized rfl _
    · rw [params_fE_iff]
      exact ne_empty_and_recognized rfl _
    · rw [params_fWT_iff]
      exact ne_empty_and_recognized rfl _
    · rw [params_fJT_iff]
      exact ne_empty_and_recognized rfl _
    · rw [params_sortBy_iff]
      constructor
      · exact fun h => h.2
      · intro h
        refine ⟨?_, h⟩
        show pyLower (pyStrip so) ≠ ""
        rcases h with h | h <;> rw [h] <;> decide
  · intro k l d₁ d₂ j₁ j₂ r₁ r₂ s₁ s₂ e₁ e₂ so₁ so₂ p lim start hd hj hr hs he hso
    exact build_search_url_congr _ _ start rfl rfl hd hj hr hs he hso rfl

/-- Witness for C5 at concrete inputs: the raw date filter
`"  Past Week "` yields the same URL as `"past week"`. -/
theorem claim_C5_witness :
    build_search_url (mkScraper "" "" "  Past Week " "" "" "" "" "" 0 0) 0 =
      build_search_url (mkScraper "" "" "past week" "" "" "" "" "" 0 0) 0 :=
  claim_C5_filter_translation.2 "" "" "  Past Week " "past week" "" "" "" "" "" ""
    "" "" "" "" 0 0 0 (by decide) (by decide) (by decide) (by decide) (by decide)
    (by decide)

/-- C6: the parameter list of the built URL contains an entry for an
enumerated filter dimension iff that dimension's stored value is non-empty
and recognized; `keywords` and `location` entries appear iff their stored
values are non-empty; the absolute start offset parameter is always
present and equals the batch start index plus `page * BATCH_SIZE`; and the
URL is exactly the base endpoint followed by these parameters in order. -/
theorem claim_C6_url_params (sc : Scraper) (start : Nat) :
    ((∃ v, ("keywords", v) ∈ build_search_params sc start) ↔ sc.keyword ≠ "") ∧
    ((∃ v, ("location", v) ∈ build_search_params sc start) ↔ sc.location ≠ "") ∧
    ((∃ v, ("f_TPR", v) ∈ build_search_params sc start) ↔
       (sc.date_posted ≠ "" ∧ DATE_FILTERS sc.date_posted ≠ "")) ∧
    ((∃ v, ("f_SB2", v) ∈ build_search_params sc start) ↔
       (sc.salary ≠ "" ∧ SALARY_FILTERS sc.salary ≠ "")) ∧
    ((∃ v, ("f_E", v) ∈ build_search_params sc start) ↔
       (sc.experience ≠ "" ∧ EXPERIENCE_FILTERS sc.experience ≠ "")) ∧
    ((∃ v, ("f_WT", v) ∈ build_search_params sc start) ↔
       (sc.remote ≠ "" ∧ REMOTE_FILTERS sc.remote ≠ "")) ∧
    ((∃ v, ("f_JT", v) ∈ build_search_params sc start) ↔
       (sc.job_type ≠ "" ∧ JOB_TYPE_FILTERS sc.job_type ≠ "")) ∧
    ((∃ v, ("sortBy", v) ∈ build_search_params sc start) ↔
       (sc.sort_by ≠ "" ∧ (sc.sort_by = "recent" ∨ sc.sort_by = "relevant"))) ∧
    ("start", toString (start + sc.page * BATCH_SIZE)) ∈ build_search_params sc start ∧
    build_search_url sc start = BASE_URL ++ "?" ++ String.intercalate "&"
      ((build_search_params sc start).map fun kv => kv.1 ++ "=" ++ requote_uri kv.2) :=
  ⟨params_keywords_iff sc start, params_location_iff sc start, params_fTPR_iff sc start,
   params_fSB2_iff sc start, params_fE_iff sc start, params_fWT_iff sc start,
   params_fJT_iff sc start, params_sortBy_iff sc start, params_start_mem sc start, rfl⟩

/-- C7: URL construction is deterministic — two scraper states with
identical filter fields (the limit may differ, it is not part of the URL)
and the same batch start offset yield byte-identical URLs. -/
theorem claim_C7_determinism (sc₁ sc₂ : Scraper) (start : Nat)
    (h1 : sc₁.keyword = sc₂.keyword) (h2 : sc₁.location = sc₂.location)
    (h3 : sc₁.date_posted = sc₂.date_posted) (h4 : sc₁.job_type = sc₂.job_type)
    (h5 : sc₁.remote = sc₂.remote) (h6 : sc₁.salary = sc₂.salary)
    (h7 : sc₁.experience = sc₂.experience) (h8 : sc₁.sort_by = sc₂.sort_by)
    (h9 : sc₁.page = sc₂.page) :
    build_search_url sc₁ start = build_search_url sc₂ start :=
  build_search_url_congr sc₁ sc₂ start h1 h2 h3 h4 h5 h6 h7 h8 h9

/-- Witness for C7 at concrete inputs: two scrapers identical except for
the result limit produce the same URL. -/
theorem claim_C7_witness :
    build_search_url (mkScraper "ai engineer" "New York" "past week" "full time"
        "remote" "100000" "senior" "recent" 1 5) 0 =
      build_search_url (mkScraper "ai engineer" "New York" "past week" "full time"
        "remote" "100000" "senior" "recent" 1 99) 0 :=
  claim_C7_determinism _ _ 0 rfl rfl rfl rfl rfl rfl rfl rfl rfl

/-- C8: record extraction is per-fragment and order-preserving — splitting
the fragment list splits the output; a fragment is emitted iff it raises
no attribute error and both its title and company are present and
non-empty (all other fields defaulting); and concretely a page with one
well-formed item and one item missing its company element yields exactly
the one well-formed record. -/
theorem claim_C8_record_extraction :
    (∀ a b : List LiFragment, parse_jobs_from_html (a ++ b) =
       parse_jobs_from_html a ++ parse_jobs_from_html b) ∧
    (∀ li : LiFragment, (parseFragment li).isSome = true ↔
       (fragmentWellFormed li = true ∧ truthy li.title = true ∧
        truthy li.company = true)) ∧
    parseFragment liOk = some jobOk ∧
    parseFragment liNoCompany = none ∧
    parse_jobs_from_html [liOk, liNoCompany] = [jobOk] := by
  refine ⟨?_, ?_, rfl, rfl, rfl⟩
  · intro a b
    simp [parse_jobs_from_html]
  · intro li
    obtain ⟨t, c, loc, te, sal, lnk, lg⟩ := li
    rcases te with _ | ⟨td, tx⟩ <;> rcases lnk with _ | ⟨lh⟩ <;>
      (try rcases td with _ | d) <;> (try rcases lh with _ | h) <;>
      simp [parseFragment, parseFragment.parseFragmentRest,
        parseFragment.parseFragmentEmit, fragmentWellFormed]

end LinkedInScraper
